import Mathlib

/-!
A shallow embedding of the small multi-tenant CRUD backend (src/main.go together with the
SQL schema file): two entities, tenants and shifts, stored in a relational store and exposed
through JSON HTTP handlers.

Modelling conventions:
* State the store generates (uuid ids, now() timestamps) is modelled by a deterministic
  counter and a logical clock inside `DB`; each successful insert bumps both, so created_at
  values strictly increase in insertion order.
* net/http's ResponseWriter is modelled by `RespWriter`: a header map, a write-once status
  and the sequence of encoded body chunks. A second WriteHeader call is superfluous and
  ignored, as in net/http, while body writes always append.
* JSON decoding of a request body into a handler's target struct is an input to the handler
  (`none` = malformed JSON, the json.Decoder.Decode failure).
* A storage connectivity failure on a round trip is an input `fail : Option String`; the
  foreign-key failure of the shifts insert is computed from the store itself.
-/

universe u

/-- Date-time value produced by Go `time.Parse(time.RFC3339, s)`: calendar fields plus the
fractional-second digits and a UTC offset in minutes. -/
structure DateTime where
  year : Nat
  month : Nat
  day : Nat
  hour : Nat
  minute : Nat
  second : Nat
  frac : List Nat
  offsetMinutes : Int
deriving DecidableEq

/-- Value of an ASCII digit character, `none` for anything else. -/
def digitVal (c : Char) : Option Nat :=
  if c.isDigit then some (c.toNat - 48) else none

/-- Read exactly two digits. -/
def read2 : List Char → Option (Nat × List Char)
  | a :: b :: rest =>
    match digitVal a, digitVal b with
    | some x, some y => some (10 * x + y, rest)
    | _, _ => none
  | _ => none

/-- Read exactly four digits. -/
def read4 : List Char → Option (Nat × List Char)
  | a :: b :: c :: d :: rest =>
    match digitVal a, digitVal b, digitVal c, digitVal d with
    | some x, some y, some z, some u => some (1000 * x + 100 * y + 10 * z + u, rest)
    | _, _, _, _ => none
  | _ => none

/-- Consume one expected literal character. -/
def expectChar (c : Char) : List Char → Option (List Char)
  | x :: rest => if x = c then some rest else none
  | [] => none

/-- Gregorian leap year, as Go's time package computes it. -/
def isLeap (y : Nat) : Bool := y % 4 == 0 && (y % 100 != 0 || y % 400 == 0)

/-- Days in a month, for the day-of-month range check of time.Parse. -/
def daysInMonth (y m : Nat) : Nat :=
  if m == 2 then (if isLeap y then 29 else 28)
  else if m == 4 || m == 6 || m == 9 || m == 11 then 30
  else 31

/-- Longest prefix of digits, together with the rest of the input. -/
def takeDigits : List Char → List Nat × List Char
  | [] => ([], [])
  | c :: rest =>
    match digitVal c with
    | some v =>
      let p := takeDigits rest
      (v :: p.1, p.2)
    | none => ([], c :: rest)

/-- Fractional seconds: Go accepts an optional decimal separator (point or comma) followed
by at least one digit after the seconds field, even for layouts without a fraction. -/
def takeFrac : List Char → Option (List Nat × List Char)
  | c :: rest =>
    if c = '.' || c = ',' then
      match takeDigits rest with
      | ([], _) => none
      | (ds, r) => some (ds, r)
    else some ([], c :: rest)
  | [] => some ([], [])

/-- Time-zone part of the RFC3339 layout `Z07:00`: a literal Z, or a sign with an hh:mm
offset. Go's time.Parse falls back from its strict RFC3339 path to the general layout
parser, whose offset range tests deliberately admit an hour of 24 and a minute of 60, so
offsets up to +24:00 and +23:60 are accepted. -/
def parseOffset : List Char → Option (Int × List Char)
  | 'Z' :: rest => some (0, rest)
  | c :: rest =>
    if c = '+' || c = '-' then
      match read2 rest with
      | some (hh, r1) =>
        match expectChar ':' r1 with
        | some r2 =>
          match read2 r2 with
          | some (mm, r3) =>
            if hh ≤ 24 && mm ≤ 60 then
              some (if c = '+' then ((hh * 60 + mm : Nat) : Int)
                    else -((hh * 60 + mm : Nat) : Int), r3)
            else none
          | none => none
        | none => none
      | none => none
    else none
  | [] => none

/-- Embeds Go `time.Parse(time.RFC3339, s)` (used at src/main.go:177 and 185): a strict
yyyy-mm-ddThh:mm:ss[.fff](Z or signed hh:mm) parse of the whole string, with calendar range
checks. -/
def parseRFC3339 (s : String) : Option DateTime := do
  let (y, r0) ← read4 s.data
  let r1 ← expectChar '-' r0
  let (mo, r2) ← read2 r1
  let r3 ← expectChar '-' r2
  let (d, r4) ← read2 r3
  let r5 ← expectChar 'T' r4
  let (h, r6) ← read2 r5
  let r7 ← expectChar ':' r6
  let (mi, r8) ← read2 r7
  let r9 ← expectChar ':' r8
  let (se, r10) ← read2 r9
  let (fr, r11) ← takeFrac r10
  let (off, r12) ← parseOffset r11
  if r12 = [] ∧ 1 ≤ mo ∧ mo ≤ 12 ∧ 1 ≤ d ∧ d ≤ daysInMonth y mo ∧
      h ≤ 23 ∧ mi ≤ 59 ∧ se ≤ 59 then
    some ⟨y, mo, d, h, mi, se, fr, off⟩
  else none

/-- A row of tenants(id uuid PK generated, name text not null, created_at timestamptz
generated), src/main.go:16-20 and the schema file. -/
structure Tenant where
  id : String
  name : String
  created_at : Nat
deriving DecidableEq

/-- A row of shifts(id uuid PK generated, tenant_id uuid FK to tenants, title text,
starts_at and ends_at nullable, created_at generated), src/main.go:22-29 and the schema
file. The Go struct declares the field StartedAt with json tag starts_at while the handlers
access s.StartsAt — a slip under which the Go file does not compile; the model carries the
single intended starts_at field. -/
structure Shift where
  id : String
  tenant_id : String
  title : String
  starts_at : Option DateTime
  ends_at : Option DateTime
  created_at : Nat
deriving DecidableEq

/-- The relational store: both tables in insertion order, a counter feeding the uuid
generator and a logical clock feeding now(). -/
structure DB where
  tenants : List Tenant
  shifts : List Shift
  nextId : Nat
  clock : Nat
deriving DecidableEq

/-- Deterministic stand-in for uuid_generate_v4(). -/
def genId (n : Nat) : String := "id-" ++ toString n

/-- The empty store. -/
def db0 : DB := ⟨[], [], 0, 0⟩

/-- The ORDER BY created_at DESC comparator on tenant rows. -/
def newerT (a b : Tenant) : Prop := b.created_at ≤ a.created_at

instance : DecidableRel newerT := fun a b => Nat.decLe b.created_at a.created_at

instance : IsTotal Tenant newerT := ⟨fun a b => Nat.le_total b.created_at a.created_at⟩

instance : IsTrans Tenant newerT := ⟨fun _ _ _ h1 h2 => Nat.le_trans h2 h1⟩

/-- The ORDER BY created_at DESC comparator on shift rows. -/
def newerS (a b : Shift) : Prop := b.created_at ≤ a.created_at

instance : DecidableRel newerS := fun a b => Nat.decLe b.created_at a.created_at

instance : IsTotal Shift newerS := ⟨fun a b => Nat.le_total b.created_at a.created_at⟩

instance : IsTrans Shift newerS := ⟨fun _ _ _ h1 h2 => Nat.le_trans h2 h1⟩

/-- SELECT id, name, created_at FROM tenants ORDER BY created_at DESC (src/main.go:70-73). -/
def selectTenants (db : DB) : List Tenant := List.insertionSort newerT db.tenants

/-- INSERT INTO tenants (name) VALUES ($1) RETURNING id, name, created_at
(src/main.go:109-114): id and created_at are generated by the store. -/
def insertTenant (db : DB) (name : String) : Tenant × DB :=
  let t : Tenant := ⟨genId db.nextId, name, db.clock⟩
  (t, { db with tenants := db.tenants ++ [t], nextId := db.nextId + 1, clock := db.clock + 1 })

/-- SELECT ... FROM shifts, with WHERE tenant_id = $1 exactly when a filter is bound, then
ORDER BY created_at DESC (src/main.go:125-133). -/
def selectShifts (db : DB) (tenantFilter : Option String) : List Shift :=
  let base := match tenantFilter with
    | some tid => db.shifts.filter (fun s => s.tenant_id == tid)
    | none => db.shifts
  List.insertionSort newerS base

/-- INSERT INTO shifts (tenant_id, title, starts_at, ends_at) ... RETURNING ...
(src/main.go:194-197); per the schema's REFERENCES tenants(id) constraint it fails with a
foreign-key violation when tenant_id matches no tenant row. -/
def insertShift (db : DB) (tenantID title : String) (st et : Option DateTime) :
    Except String (Shift × DB) :=
  if db.tenants.any (fun t => t.id == tenantID) then
    let s : Shift := ⟨genId db.nextId, tenantID, title, st, et, db.clock⟩
    Except.ok (s, { db with shifts := db.shifts ++ [s], nextId := db.nextId + 1,
                            clock := db.clock + 1 })
  else
    Except.error "insert or update on table shifts violates foreign key constraint"

/-- An encoded response body chunk, as json.Encoder produces it. A nil Go slice encodes as
JSON null; a non-nil slice as an array. -/
inductive Body where
  | text (s : String)
  | jsonNull
  | tenantObj (t : Tenant)
  | shiftObj (s : Shift)
  | tenantArr (ts : List Tenant)
  | shiftArr (ss : List Shift)
  | errorObj (msg : String)
deriving DecidableEq

/-- The observable side of net/http's ResponseWriter. -/
structure RespWriter where
  headers : List (String × String)
  status : Option Nat
  chunks : List Body
deriving DecidableEq

/-- A fresh writer. -/
def RespWriter.empty : RespWriter := ⟨[], none, []⟩

/-- Header().Set: replaces any previous value of the key. -/
def RespWriter.setHeader (w : RespWriter) (k v : String) : RespWriter :=
  { w with headers := w.headers.filter (fun p => p.1 ≠ k) ++ [(k, v)] }

/-- WriteHeader: only the first call takes effect; net/http ignores a superfluous one. -/
def RespWriter.writeHeader (w : RespWriter) (code : Nat) : RespWriter :=
  match w.status with
  | none => { w with status := some code }
  | some _ => w

/-- A body write; an implicit 200 is sent first if no status was written yet. -/
def RespWriter.write (w : RespWriter) (b : Body) : RespWriter :=
  { w with status := some (w.status.getD 200), chunks := w.chunks ++ [b] }

/-- jsonOK (src/main.go:33-37). -/
def jsonOK (w : RespWriter) (v : Body) : RespWriter :=
  ((w.setHeader "Content-Type" "application/json").writeHeader 200).write v

/-- jsonCreated (src/main.go:39-43). The source writes status 201 and then encodes
map[string]any with key error and value msg; msg is not in scope there and the parameter v
is never used, so the Go file does not compile as written (the body was evidently pasted
from the error helper). The statement is embedded as written, with the out-of-scope msg
supplied as an explicit parameter. -/
def jsonCreated (msg : String) (w : RespWriter) (_v : Body) : RespWriter :=
  ((w.setHeader "Content-Type" "application/json").writeHeader 201).write (Body.errorObj msg)

/-- Modelled from the spec: jsonError is called throughout src/main.go but defined nowhere
in the repository sources. Per the spec, an error response carries the given status code and
a JSON object with a single error string field, and non-empty responses are
application/json. -/
def jsonError (w : RespWriter) (code : Nat) (msg : String) : RespWriter :=
  ((w.setHeader "Content-Type" "application/json").writeHeader code).write (Body.errorObj msg)

/-- A storage operation issued over the connection pool. -/
inductive StorageOp where
  | queryTenants
  | insertTenantOp (name : String)
  | queryShifts (tenantFilter : Option String)
  | insertShiftOp (tenantID title : String) (st et : Option DateTime)
deriving DecidableEq

/-- A handler invocation's outcome: the final response writer, the store state after the
request, and the storage operations issued, in order. -/
structure HandlerOut where
  w : RespWriter
  db : DB
  calls : List StorageOp
deriving DecidableEq

/-- createTenant (src/main.go:97-119). body? is the decode result of the request body into
the handler's struct, of which only the name field exists (none = malformed JSON); fail
models a storage error on the INSERT round trip (some err = QueryRow...Scan returns err).
Go len on a string counts UTF-8 bytes, hence utf8ByteSize. After the 500 branch the source
has no return statement, so execution falls through to jsonCreated with the zero-valued
Tenant; jcMsg is jsonCreated's out-of-scope msg. -/
def createTenant (jcMsg : String) (body? : Option String) (fail : Option String)
    (db : DB) (w : RespWriter) : HandlerOut :=
  match body? with
  | none => ⟨jsonError w 400 "invalid json", db, []⟩
  | some name =>
    if name.utf8ByteSize < 2 then
      ⟨jsonError w 422 "name must be at least 2 characters", db, []⟩
    else
      match fail with
      | some err =>
        ⟨jsonCreated jcMsg (jsonError w 500 err) (Body.tenantObj ⟨"", "", 0⟩), db,
          [StorageOp.insertTenantOp name]⟩
      | none =>
        let r := insertTenant db name
        ⟨jsonCreated jcMsg w (Body.tenantObj r.1), r.2, [StorageOp.insertTenantOp name]⟩

/-- The rows loop of both list handlers: appending to a slice that starts nil. Appending to
a nil Go slice yields a non-nil one, so the result is nil exactly when no row was seen. -/
def goAppend {α : Type u} (acc : Option (List α)) (x : α) : Option (List α) :=
  some (acc.getD [] ++ [x])

/-- json.Encoder on a tenant slice: nil encodes as JSON null, otherwise as an array. -/
def encodeTenantSlice : Option (List Tenant) → Body
  | none => Body.jsonNull
  | some l => Body.tenantArr l

/-- json.Encoder on a shift slice: nil encodes as JSON null, otherwise as an array. -/
def encodeShiftSlice : Option (List Shift) → Body
  | none => Body.jsonNull
  | some l => Body.shiftArr l

/-- listTenants handler (src/main.go:69-94): on query success the rows are accumulated into
a slice that starts nil and the slice is encoded with jsonOK. -/
def listTenants (fail : Option String) (db : DB) (w : RespWriter) : HandlerOut :=
  match fail with
  | some err => ⟨jsonError w 500 err, db, [StorageOp.queryTenants]⟩
  | none =>
    let out := (selectTenants db).foldl goAppend none
    ⟨jsonOK w (encodeTenantSlice out), db, [StorageOp.queryTenants]⟩

/-- listShifts handler (src/main.go:122-156). qparam is the raw tenant_id query parameter
(none = absent); Query().Get returns the empty string for an absent parameter, and the WHERE
clause is added exactly when the resulting string is non-empty. -/
def listShifts (qparam : Option String) (fail : Option String) (db : DB) (w : RespWriter) :
    HandlerOut :=
  let tenantID := qparam.getD ""
  let filter := if tenantID ≠ "" then some tenantID else none
  match fail with
  | some err => ⟨jsonError w 500 err, db, [StorageOp.queryShifts filter]⟩
  | none =>
    let out := (selectShifts db filter).foldl goAppend none
    ⟨jsonOK w (encodeShiftSlice out), db, [StorageOp.queryShifts filter]⟩

/-- The createShift request struct (src/main.go:160-165): fields absent from the JSON body
leave the string fields empty and the pointer fields nil. -/
structure ShiftBody where
  tenant_id : String
  title : String
  starts_at : Option String
  ends_at : Option String
deriving DecidableEq

/-- The optional-timestamp block of createShift (src/main.go:175-191) for one field: a nil
or empty-string field is left NULL (some none); otherwise time.Parse decides — failure is
the 422 branch (none), success stores the parsed value. -/
def goParseTs : Option String → Option (Option DateTime)
  | none => some none
  | some sv =>
    if sv = "" then some none
    else
      match parseRFC3339 sv with
      | some d => some (some d)
      | none => none

/-- createShift (src/main.go:159-205): decode, required-fields check, the two timestamp
blocks, then the insert; every error branch here does return. -/
def createShift (jcMsg : String) (body? : Option ShiftBody) (fail : Option String)
    (db : DB) (w : RespWriter) : HandlerOut :=
  match body? with
  | none => ⟨jsonError w 400 "invalid json", db, []⟩
  | some b =>
    if b.tenant_id = "" ∨ b.title = "" then
      ⟨jsonError w 422 "tenant_id and title required", db, []⟩
    else
      match goParseTs b.starts_at with
      | none => ⟨jsonError w 422 "invalid starts_at format (RFC3339)", db, []⟩
      | some st =>
        match goParseTs b.ends_at with
        | none => ⟨jsonError w 422 "invalid ends_at format (RFC3339)", db, []⟩
        | some et =>
          match fail with
          | some err =>
            ⟨jsonError w 500 err, db, [StorageOp.insertShiftOp b.tenant_id b.title st et]⟩
          | none =>
            match insertShift db b.tenant_id b.title st et with
            | Except.error err =>
              ⟨jsonError w 500 err, db, [StorageOp.insertShiftOp b.tenant_id b.title st et]⟩
            | Except.ok p =>
              ⟨jsonCreated jcMsg w (Body.shiftObj p.1), p.2,
                [StorageOp.insertShiftOp b.tenant_id b.title st et]⟩

/-- HTTP request methods; HEAD and the rest of the verbs play no role here and PUT/DELETE
stand for any unregistered method. -/
inductive Method where
  | GET
  | POST
  | OPTIONS
  | PUT
  | DELETE
deriving DecidableEq

/-- One HTTP exchange's externally-given inputs: the request line, the raw tenant_id query
parameter, and the outcome of JSON-decoding the body into each handler's target struct. -/
structure Request where
  method : Method
  path : String
  tenantIdParam : Option String
  tenantBody : Option String
  shiftBody : Option ShiftBody
deriving DecidableEq

/-- withCORS middleware (src/main.go:45-56): set the three CORS headers, answer OPTIONS
directly with 204, otherwise run the wrapped handler. -/
def withCORS (next : Request → DB → RespWriter → HandlerOut)
    (r : Request) (db : DB) (w : RespWriter) : HandlerOut :=
  let w1 := ((w.setHeader "Access-Control-Allow-Origin" "*").setHeader
      "Access-Control-Allow-Headers" "Content-Type, Authorization").setHeader
      "Access-Control-Allow-Methods" "GET, POST, OPTIONS"
  if r.method = Method.OPTIONS then
    ⟨w1.writeHeader 204, db, []⟩
  else
    next r db w1

/-- The route table of main (src/main.go:225-230) under Go 1.22 ServeMux dispatch: a pattern
of the shape METHOD /path matches that method only; when some pattern's path matches but no
registered method does, the mux itself replies 405 Method Not Allowed, and an unknown path
gets 404 — in both cases no registered handler (hence neither withCORS) runs. /healthz is
registered without a method and matches every method. -/
def serve (jcMsg : String) (fail : Option String) (req : Request) (db : DB) : HandlerOut :=
  if req.path = "/healthz" then
    ⟨RespWriter.write RespWriter.empty (Body.text "ok"), db, []⟩
  else if req.path = "/api/tenants" then
    match req.method with
    | Method.GET => withCORS (fun _ db w => listTenants fail db w) req db RespWriter.empty
    | Method.POST =>
      withCORS (fun r db w => createTenant jcMsg r.tenantBody fail db w) req db
        RespWriter.empty
    | _ =>
      ⟨((RespWriter.empty.setHeader "Allow" "GET, POST").writeHeader 405).write
        (Body.text "Method Not Allowed\n"), db, []⟩
  else if req.path = "/api/shifts" then
    match req.method with
    | Method.GET =>
      withCORS (fun r db w => listShifts r.tenantIdParam fail db w) req db RespWriter.empty
    | Method.POST =>
      withCORS (fun r db w => createShift jcMsg r.shiftBody fail db w) req db
        RespWriter.empty
    | _ =>
      ⟨((RespWriter.empty.setHeader "Allow" "GET, POST").writeHeader 405).write
        (Body.text "Method Not Allowed\n"), db, []⟩
  else
    ⟨(RespWriter.empty.writeHeader 404).write (Body.text "404 page not found\n"), db, []⟩

/-- The shifts carried by one body chunk (empty for null, error and non-shift bodies). -/
def bodyShifts : Body → List Shift
  | Body.shiftArr l => l
  | _ => []

/-- The shifts carried by a handler response. -/
def shiftsOut (h : HandlerOut) : List Shift :=
  h.w.chunks.foldl (fun acc b => acc ++ bodyShifts b) []

/-- A small sample store with two tenants and three shifts, used to instantiate theorems at
concrete inputs. -/
def dbW : DB :=
  ⟨[⟨"t1", "Acme", 0⟩, ⟨"t2", "Beta", 1⟩],
   [⟨"s1", "t1", "Morning", none, none, 2⟩, ⟨"s2", "t2", "Evening", none, none, 3⟩,
    ⟨"s3", "t1", "Night", none, none, 4⟩], 5, 5⟩

/-- Folding the rows loop from a non-nil slice appends the rows. -/
theorem foldl_goAppend {α : Type u} (l ys : List α) :
    l.foldl goAppend (some ys) = some (ys ++ l) := by
  induction l generalizing ys with
  | nil => simp
  | cons x xs ih => simp [List.foldl, goAppend, ih]

/-- Folding the rows loop from the nil slice over at least one row yields the row list. -/
theorem foldl_goAppend_cons {α : Type u} (x : α) (xs : List α) :
    (x :: xs).foldl goAppend none = some (x :: xs) := by
  simp [List.foldl, goAppend, foldl_goAppend]

/-- Reading the shifts back out of an encoded slice recovers the row list. -/
theorem bodyShifts_encodeShiftSlice (rows : List Shift) :
    bodyShifts (encodeShiftSlice (rows.foldl goAppend none)) = rows := by
  cases rows with
  | nil => rfl
  | cons x xs =>
    rw [foldl_goAppend_cons]
    rfl

/-- A present, non-empty, unparseable timestamp field drives its block to the 422 branch. -/
theorem goParseTs_eq_none {f : Option String} {sv : String} (hf : f = some sv)
    (hne : sv ≠ "") (hp : parseRFC3339 sv = none) : goParseTs f = none := by
  subst hf
  simp [goParseTs, hne, hp]

/-- What a list handler's response carries is exactly the selected row list. -/
theorem shiftsOut_listShifts (q : Option String) (db : DB) :
    shiftsOut (listShifts q none db RespWriter.empty) =
      selectShifts db (if q.getD "" ≠ "" then some (q.getD "") else none) := by
  simp only [listShifts, shiftsOut, jsonOK, RespWriter.write, RespWriter.writeHeader,
    RespWriter.setHeader, RespWriter.empty, List.foldl, List.nil_append,
    bodyShifts_encodeShiftSlice]

/-- C1: the claim says a POST /api/tenants request with a valid name is answered 201 with
the created Tenant record as body. In the source, jsonCreated writes 201 but encodes an
error-shaped object built from an out-of-scope variable and never encodes its argument, so
the success body is never the Tenant record: evaluated at the name Acme Security over the
empty store (with m instantiating that out-of-scope variable), the row is inserted and the
status is 201, yet the one body chunk is the error object, not the tenant. -/
theorem C1_jsonCreated_writes_error_object :
    (createTenant "m" (some "Acme Security") none db0 RespWriter.empty).w =
      ⟨[("Content-Type", "application/json")], some 201, [Body.errorObj "m"]⟩ ∧
    (createTenant "m" (some "Acme Security") none db0 RespWriter.empty).db.tenants =
      [⟨"id-0", "Acme Security", 0⟩] ∧
    (∀ t : Tenant, Body.tenantObj t ∉
      (createTenant "m" (some "Acme Security") none db0 RespWriter.empty).w.chunks) := by
  refine ⟨by decide, by decide, ?_⟩
  intro t ht
  rw [show (createTenant "m" (some "Acme Security") none db0 RespWriter.empty).w.chunks =
      [Body.errorObj "m"] from by decide] at ht
  simp at ht

/-- C2 counterexample: the name é is a single character — the claim and the spec measure
characters — yet two UTF-8 bytes, so the Go len check lets it through: the handler answers
201, issues the insert and a tenant row is created, not the claimed 422 with no insert. -/
theorem C2_one_char_multibyte_name_accepted :
    ("é" : String).length = 1 ∧
    (createTenant "m" (some "é") none db0 RespWriter.empty).w.status = some 201 ∧
    (createTenant "m" (some "é") none db0 RespWriter.empty).calls =
      [StorageOp.insertTenantOp "é"] ∧
    (createTenant "m" (some "é") none db0 RespWriter.empty).db.tenants ≠ [] := by
  decide

/-- C2 (amended): for every request body whose name is shorter than two UTF-8 bytes — the
length Go len actually measures — createTenant answers 422 with the documented error body,
issues no storage operation and leaves the store unchanged. -/
theorem C2_byte_length_under_two_rejected (jcMsg name : String) (fail : Option String)
    (db : DB) (h : name.utf8ByteSize < 2) :
    (createTenant jcMsg (some name) fail db RespWriter.empty).w.status = some 422 ∧
    (createTenant jcMsg (some name) fail db RespWriter.empty).w.chunks =
      [Body.errorObj "name must be at least 2 characters"] ∧
    (createTenant jcMsg (some name) fail db RespWriter.empty).db = db ∧
    (createTenant jcMsg (some name) fail db RespWriter.empty).calls = [] := by
  have e : createTenant jcMsg (some name) fail db RespWriter.empty =
      ⟨⟨[("Content-Type", "application/json")], some 422,
        [Body.errorObj "name must be at least 2 characters"]⟩, db, []⟩ := by
    simp only [createTenant, if_pos h]
    rfl
  rw [e]
  exact ⟨rfl, rfl, rfl, rfl⟩

/-- C2 witness: the one-byte name x is rejected with 422, no storage call, store unchanged. -/
theorem C2_byte_length_under_two_rejected_witness :
    ("x" : String).utf8ByteSize < 2 ∧
    ((createTenant "m" (some "x") none db0 RespWriter.empty).w.status = some 422 ∧
     (createTenant "m" (some "x") none db0 RespWriter.empty).w.chunks =
       [Body.errorObj "name must be at least 2 characters"] ∧
     (createTenant "m" (some "x") none db0 RespWriter.empty).db = db0 ∧
     (createTenant "m" (some "x") none db0 RespWriter.empty).calls = []) :=
  ⟨by decide, C2_byte_length_under_two_rejected "m" "x" none db0 (by decide)⟩

/-- C9: the claim says a storage failure in POST /api/tenants produces a single 5xx
error-object response. The source is missing the return after its 500 branch (contrast
createShift), so jsonCreated also runs: the status stays 500 — the later 201 WriteHeader is
superfluous and ignored — but a second body chunk is appended, so the response is not a
single error-object body. -/
theorem C9_storage_failure_double_write :
    ((createTenant "m" (some "Acme Security") (some "connection refused") db0
        RespWriter.empty).w.status = some 500) ∧
    ((createTenant "m" (some "Acme Security") (some "connection refused") db0
        RespWriter.empty).w.chunks =
      [Body.errorObj "connection refused", Body.errorObj "m"]) ∧
    ((createTenant "m" (some "Acme Security") (some "connection refused") db0
        RespWriter.empty).w.chunks.length ≠ 1) ∧
    ((createTenant "m" (some "Acme Security") (some "connection refused") db0
        RespWriter.empty).db = db0) := by
  decide

/-- C4 counterexample: with non-empty tenant_id t1 and title Shift A, a starts_at field that
is present and equal to the empty string is not a valid RFC3339 timestamp, yet the handler
does not answer 422 and does call storage: the empty string is treated like an absent field,
the insert is issued (failing the foreign-key check here, hence 500). -/
theorem C4_empty_string_timestamp_not_rejected :
    parseRFC3339 "" = none ∧
    (createShift "m" (some ⟨"t1", "Shift A", some "", none⟩) none db0
        RespWriter.empty).w.status = some 500 ∧
    (createShift "m" (some ⟨"t1", "Shift A", some "", none⟩) none db0
        RespWriter.empty).calls = [StorageOp.insertShiftOp "t1" "Shift A" none none] := by
  decide

/-- C6 counterexample: on the empty store, GET /api/tenants answers 200 but the body is the
JSON null produced by encoding the nil Go slice, not the empty JSON array the claim states. -/
theorem C6_empty_store_encodes_null :
    (listTenants none db0 RespWriter.empty).w.status = some 200 ∧
    (listTenants none db0 RespWriter.empty).w.chunks = [Body.jsonNull] ∧
    (listTenants none db0 RespWriter.empty).w.chunks ≠ [Body.tenantArr []] := by
  decide

/-- C8: the claim says every OPTIONS request to an /api/* path gets an empty 204 with the
CORS headers without reaching the handlers. With the method-qualified route patterns of
main, an OPTIONS preflight never reaches withCORS: OPTIONS /api/tenants and /api/shifts get
the mux's own 405 without any CORS header, an unknown /api path gets 404, while the withCORS
OPTIONS branch — which does answer an empty 204 as the claim describes — is unreachable
through the route table. -/
theorem C8_options_request_rejected_by_mux :
    ((serve "m" none ⟨Method.OPTIONS, "/api/tenants", none, none, none⟩ db0).w.status =
      some 405) ∧
    ((serve "m" none ⟨Method.OPTIONS, "/api/tenants", none, none, none⟩ db0).w.headers.all
      (fun p => p.1 != "Access-Control-Allow-Origin") = true) ∧
    ((serve "m" none ⟨Method.OPTIONS, "/api/shifts", none, none, none⟩ db0).w.status =
      some 405) ∧
    ((serve "m" none ⟨Method.OPTIONS, "/api/unknown", none, none, none⟩ db0).w.status =
      some 404) ∧
    ((withCORS (fun _ db w => listTenants none db w)
        ⟨Method.OPTIONS, "/api/tenants", none, none, none⟩ db0 RespWriter.empty).w.status =
      some 204) ∧
    ((withCORS (fun _ db w => listTenants none db w)
        ⟨Method.OPTIONS, "/api/tenants", none, none, none⟩ db0 RespWriter.empty).w.chunks =
      []) := by
  decide

/-- C10: listShifts with a tenant_id query parameter that is present but empty behaves
exactly as with the parameter absent — Query().Get yields the empty string in both cases and
the WHERE clause is only added for a non-empty value — so the whole handler outcome
coincides. -/
theorem C10_empty_tenant_id_param_like_absent (fail : Option String) (db : DB)
    (w : RespWriter) :
    listShifts (some "") fail db w = listShifts none fail db w := rfl

/-- C10 witness: the coincidence evaluated on the sample store. -/
theorem C10_empty_tenant_id_param_like_absent_witness :
    listShifts (some "") none dbW RespWriter.empty = listShifts none none dbW
      RespWriter.empty :=
  C10_empty_tenant_id_param_like_absent none dbW RespWriter.empty

/-- C3: the checks of both POST handlers run in the order JSON parse, required fields,
timestamp format, storage, and the first failure short-circuits everything after it: a
malformed body yields 400 with no storage call and an unchanged store on both handlers; an
empty tenant_id or title yields the required-fields 422 whatever the timestamp fields hold;
an unparseable starts_at (respectively ends_at, once starts_at passed) yields its 422 before
any storage call. -/
theorem C3_validation_order_short_circuit (jcMsg : String) (fail : Option String) (db : DB) :
    ((createTenant jcMsg none fail db RespWriter.empty).w.status = some 400 ∧
     (createTenant jcMsg none fail db RespWriter.empty).calls = [] ∧
     (createTenant jcMsg none fail db RespWriter.empty).db = db) ∧
    ((createShift jcMsg none fail db RespWriter.empty).w.status = some 400 ∧
     (createShift jcMsg none fail db RespWriter.empty).calls = [] ∧
     (createShift jcMsg none fail db RespWriter.empty).db = db) ∧
    (∀ b : ShiftBody, b.tenant_id = "" ∨ b.title = "" →
      (createShift jcMsg (some b) fail db RespWriter.empty).w.status = some 422 ∧
      (createShift jcMsg (some b) fail db RespWriter.empty).w.chunks =
        [Body.errorObj "tenant_id and title required"] ∧
      (createShift jcMsg (some b) fail db RespWriter.empty).calls = []) ∧
    (∀ b : ShiftBody, ¬ (b.tenant_id = "" ∨ b.title = "") → goParseTs b.starts_at = none →
      (createShift jcMsg (some b) fail db RespWriter.empty).w.status = some 422 ∧
      (createShift jcMsg (some b) fail db RespWriter.empty).w.chunks =
        [Body.errorObj "invalid starts_at format (RFC3339)"] ∧
      (createShift jcMsg (some b) fail db RespWriter.empty).calls = []) ∧
    (∀ b : ShiftBody, ∀ st : Option DateTime, ¬ (b.tenant_id = "" ∨ b.title = "") →
      goParseTs b.starts_at = some st → goParseTs b.ends_at = none →
      (createShift jcMsg (some b) fail db RespWriter.empty).w.status = some 422 ∧
      (createShift jcMsg (some b) fail db RespWriter.empty).w.chunks =
        [Body.errorObj "invalid ends_at format (RFC3339)"] ∧
      (createShift jcMsg (some b) fail db RespWriter.empty).calls = []) := by
  refine ⟨⟨rfl, rfl, rfl⟩, ⟨rfl, rfl, rfl⟩, ?_, ?_, ?_⟩
  · intro b hb
    have e : createShift jcMsg (some b) fail db RespWriter.empty =
        ⟨⟨[("Content-Type", "application/json")], some 422,
          [Body.errorObj "tenant_id and title required"]⟩, db, []⟩ := by
      simp only [createShift, if_pos hb]
      rfl
    rw [e]
    exact ⟨rfl, rfl, rfl⟩
  · intro b hb hs
    have e : createShift jcMsg (some b) fail db RespWriter.empty =
        ⟨⟨[("Content-Type", "application/json")], some 422,
          [Body.errorObj "invalid starts_at format (RFC3339)"]⟩, db, []⟩ := by
      simp only [createShift, if_neg hb, hs]
      rfl
    rw [e]
    exact ⟨rfl, rfl, rfl⟩
  · intro b st hb hs he
    have e : createShift jcMsg (some b) fail db RespWriter.empty =
        ⟨⟨[("Content-Type", "application/json")], some 422,
          [Body.errorObj "invalid ends_at format (RFC3339)"]⟩, db, []⟩ := by
      simp only [createShift, if_neg hb, hs, he]
      rfl
    rw [e]
    exact ⟨rfl, rfl, rfl⟩

/-- C3 witness: the short-circuits evaluated at concrete requests — malformed bodies on both
handlers, a missing tenant_id beside a bad starts_at, a bad starts_at alone, and a bad
ends_at behind an absent starts_at. -/
theorem C3_validation_order_short_circuit_witness :
    ((createTenant "m" none none db0 RespWriter.empty).w.status = some 400 ∧
     (createTenant "m" none none db0 RespWriter.empty).calls = [] ∧
     (createTenant "m" none none db0 RespWriter.empty).db = db0) ∧
    ((createShift "m" none none db0 RespWriter.empty).w.status = some 400 ∧
     (createShift "m" none none db0 RespWriter.empty).calls = [] ∧
     (createShift "m" none none db0 RespWriter.empty).db = db0) ∧
    ((createShift "m" (some ⟨"", "x", some "garbage", none⟩) none db0
        RespWriter.empty).w.status = some 422 ∧
     (createShift "m" (some ⟨"", "x", some "garbage", none⟩) none db0
        RespWriter.empty).w.chunks = [Body.errorObj "tenant_id and title required"] ∧
     (createShift "m" (some ⟨"", "x", some "garbage", none⟩) none db0
        RespWriter.empty).calls = []) ∧
    ((createShift "m" (some ⟨"t1", "x", some "garbage", none⟩) none db0
        RespWriter.empty).w.status = some 422 ∧
     (createShift "m" (some ⟨"t1", "x", some "garbage", none⟩) none db0
        RespWriter.empty).w.chunks = [Body.errorObj "invalid starts_at format (RFC3339)"] ∧
     (createShift "m" (some ⟨"t1", "x", some "garbage", none⟩) none db0
        RespWriter.empty).calls = []) ∧
    ((createShift "m" (some ⟨"t1", "x", none, some "garbage"⟩) none db0
        RespWriter.empty).w.status = some 422 ∧
     (createShift "m" (some ⟨"t1", "x", none, some "garbage"⟩) none db0
        RespWriter.empty).w.chunks = [Body.errorObj "invalid ends_at format (RFC3339)"] ∧
     (createShift "m" (some ⟨"t1", "x", none, some "garbage"⟩) none db0
        RespWriter.empty).calls = []) :=
  let h := C3_validation_order_short_circuit "m" none db0
  ⟨h.1, h.2.1,
   h.2.2.1 ⟨"", "x", some "garbage", none⟩ (Or.inl rfl),
   h.2.2.2.1 ⟨"t1", "x", some "garbage", none⟩ (by decide) (by decide),
   h.2.2.2.2 ⟨"t1", "x", none, some "garbage"⟩ none (by decide) rfl (by decide)⟩

/-- C4 (amended): when tenant_id and title are non-empty and starts_at or ends_at is present
with a non-empty string that time.Parse rejects, createShift answers 422 and makes no
storage call, leaving the store unchanged; a present-but-empty-string timestamp field is
instead treated like an absent one. -/
theorem C4_nonempty_invalid_timestamp_rejected (jcMsg : String) (fail : Option String)
    (db : DB) (b : ShiftBody) (h1 : b.tenant_id ≠ "") (h2 : b.title ≠ "")
    (hbad : (∃ sv, b.starts_at = some sv ∧ sv ≠ "" ∧ parseRFC3339 sv = none) ∨
            (∃ ev, b.ends_at = some ev ∧ ev ≠ "" ∧ parseRFC3339 ev = none)) :
    (createShift jcMsg (some b) fail db RespWriter.empty).w.status = some 422 ∧
    (createShift jcMsg (some b) fail db RespWriter.empty).calls = [] ∧
    (createShift jcMsg (some b) fail db RespWriter.empty).db = db := by
  have hne : ¬ (b.tenant_id = "" ∨ b.title = "") := by
    rintro (hc | hc)
    · exact h1 hc
    · exact h2 hc
  rcases hbad with ⟨sv, hf, hsv, hp⟩ | ⟨ev, hf, hev, hp⟩
  · have hs : goParseTs b.starts_at = none := goParseTs_eq_none hf hsv hp
    have e : createShift jcMsg (some b) fail db RespWriter.empty =
        ⟨⟨[("Content-Type", "application/json")], some 422,
          [Body.errorObj "invalid starts_at format (RFC3339)"]⟩, db, []⟩ := by
      simp only [createShift, if_neg hne, hs]
      rfl
    rw [e]
    exact ⟨rfl, rfl, rfl⟩
  · have he : goParseTs b.ends_at = none := goParseTs_eq_none hf hev hp
    cases hs : goParseTs b.starts_at with
    | none =>
      have e : createShift jcMsg (some b) fail db RespWriter.empty =
          ⟨⟨[("Content-Type", "application/json")], some 422,
            [Body.errorObj "invalid starts_at format (RFC3339)"]⟩, db, []⟩ := by
        simp only [createShift, if_neg hne, hs]
        rfl
      rw [e]
      exact ⟨rfl, rfl, rfl⟩
    | some st =>
      have e : createShift jcMsg (some b) fail db RespWriter.empty =
          ⟨⟨[("Content-Type", "application/json")], some 422,
            [Body.errorObj "invalid ends_at format (RFC3339)"]⟩, db, []⟩ := by
        simp only [createShift, if_neg hne, hs, he]
        rfl
      rw [e]
      exact ⟨rfl, rfl, rfl⟩

/-- C4 witness: a present, non-empty, unparseable ends_at is rejected with 422 and no
storage call. -/
theorem C4_nonempty_invalid_timestamp_rejected_witness :
    (("t1" : String) ≠ "" ∧ ("x" : String) ≠ "" ∧ parseRFC3339 "not-a-time" = none) ∧
    ((createShift "m" (some ⟨"t1", "x", none, some "not-a-time"⟩) none db0
        RespWriter.empty).w.status = some 422 ∧
     (createShift "m" (some ⟨"t1", "x", none, some "not-a-time"⟩) none db0
        RespWriter.empty).calls = [] ∧
     (createShift "m" (some ⟨"t1", "x", none, some "not-a-time"⟩) none db0
        RespWriter.empty).db = db0) :=
  ⟨by decide,
   C4_nonempty_invalid_timestamp_rejected "m" none db0 ⟨"t1", "x", none, some "not-a-time"⟩
     (by decide) (by decide) (Or.inr ⟨"not-a-time", rfl, by decide, by decide⟩)⟩

/-- C5: a fully-valid createShift body whose tenant_id matches no tenant row does reach
storage, the foreign-key check fails there, the response is the 500 storage-failure error
object, and the store is unchanged — no shift row is created. -/
theorem C5_unknown_tenant_insert_fails (jcMsg : String) (db : DB) (b : ShiftBody)
    (st et : Option DateTime) (h1 : b.tenant_id ≠ "") (h2 : b.title ≠ "")
    (h3 : goParseTs b.starts_at = some st) (h4 : goParseTs b.ends_at = some et)
    (h5 : db.tenants.any (fun t => t.id == b.tenant_id) = false) :
    (createShift jcMsg (some b) none db RespWriter.empty).w.status = some 500 ∧
    (createShift jcMsg (some b) none db RespWriter.empty).w.chunks =
      [Body.errorObj "insert or update on table shifts violates foreign key constraint"] ∧
    (createShift jcMsg (some b) none db RespWriter.empty).db = db ∧
    (createShift jcMsg (some b) none db RespWriter.empty).calls =
      [StorageOp.insertShiftOp b.tenant_id b.title st et] := by
  have hne : ¬ (b.tenant_id = "" ∨ b.title = "") := by
    rintro (hc | hc)
    · exact h1 hc
    · exact h2 hc
  have hins : insertShift db b.tenant_id b.title st et =
      Except.error "insert or update on table shifts violates foreign key constraint" := by
    simp only [insertShift, h5]
    rfl
  have e : createShift jcMsg (some b) none db RespWriter.empty =
      ⟨⟨[("Content-Type", "application/json")], some 500,
        [Body.errorObj "insert or update on table shifts violates foreign key constraint"]⟩,
       db, [StorageOp.insertShiftOp b.tenant_id b.title st et]⟩ := by
    simp only [createShift, if_neg hne, h3, h4, hins]
    rfl
  rw [e]
  exact ⟨rfl, rfl, rfl, rfl⟩

/-- C5 witness: creating a shift for the unknown tenant t9 on the empty store fails with the
foreign-key 500 and leaves the store empty. -/
theorem C5_unknown_tenant_insert_fails_witness :
    (("t9" : String) ≠ "" ∧ ("Night" : String) ≠ "" ∧
     db0.tenants.any (fun t => t.id == "t9") = false) ∧
    ((createShift "m" (some ⟨"t9", "Night", none, none⟩) none db0
        RespWriter.empty).w.status = some 500 ∧
     (createShift "m" (some ⟨"t9", "Night", none, none⟩) none db0
        RespWriter.empty).w.chunks =
       [Body.errorObj "insert or update on table shifts violates foreign key constraint"] ∧
     (createShift "m" (some ⟨"t9", "Night", none, none⟩) none db0
        RespWriter.empty).db = db0 ∧
     (createShift "m" (some ⟨"t9", "Night", none, none⟩) none db0
        RespWriter.empty).calls = [StorageOp.insertShiftOp "t9" "Night" none none]) :=
  ⟨by decide,
   C5_unknown_tenant_insert_fails "m" db0 ⟨"t9", "Night", none, none⟩ none none
     (by decide) (by decide) rfl rfl rfl⟩

/-- C6 (amended): a GET /api/tenants request that succeeds at storage answers 200; when
tenants exist the body is the JSON array of all tenant rows ordered newest created_at first;
when the table is empty the body is the JSON null encoding of the nil Go slice — still not
an error, but not an empty JSON array. -/
theorem C6_list_tenants_sorted_or_null (db : DB) :
    (listTenants none db RespWriter.empty).w.status = some 200 ∧
    (db.tenants = [] → (listTenants none db RespWriter.empty).w.chunks = [Body.jsonNull]) ∧
    (db.tenants ≠ [] →
      (listTenants none db RespWriter.empty).w.chunks =
        [Body.tenantArr (selectTenants db)] ∧
      List.Sorted newerT (selectTenants db) ∧
      List.Perm (selectTenants db) db.tenants) := by
  refine ⟨rfl, ?_, ?_⟩
  · intro h
    simp only [listTenants, selectTenants, h]
    rfl
  · intro h
    have hperm : List.Perm (selectTenants db) db.tenants :=
      List.perm_insertionSort newerT db.tenants
    refine ⟨?_, List.sorted_insertionSort newerT db.tenants, hperm⟩
    have hnil : selectTenants db ≠ [] := by
      intro hn
      apply h
      have hp := hperm.symm
      rw [hn] at hp
      exact hp.eq_nil
    obtain ⟨x, xs, hx⟩ := List.exists_cons_of_ne_nil hnil
    simp only [listTenants]
    rw [hx, foldl_goAppend_cons, ← hx]
    rfl

/-- C6 witness: the statement evaluated on the sample store with two tenants. -/
theorem C6_list_tenants_sorted_or_null_witness :
    (listTenants none dbW RespWriter.empty).w.status = some 200 ∧
    (dbW.tenants = [] → (listTenants none dbW RespWriter.empty).w.chunks = [Body.jsonNull]) ∧
    (dbW.tenants ≠ [] →
      (listTenants none dbW RespWriter.empty).w.chunks =
        [Body.tenantArr (selectTenants dbW)] ∧
      List.Sorted newerT (selectTenants dbW) ∧
      List.Perm (selectTenants dbW) dbW.tenants) :=
  C6_list_tenants_sorted_or_null dbW

/-- C7: for a non-empty tenant_id query value X, GET /api/shifts answers 200 and carries
exactly the shifts whose tenant_id equals X, ordered newest created_at first; with the
parameter absent it carries the shifts of all tenants in the same newest-first order. -/
theorem C7_list_shifts_filter_and_order (db : DB) (X : String) (hX : X ≠ "") :
    (listShifts (some X) none db RespWriter.empty).w.status = some 200 ∧
    shiftsOut (listShifts (some X) none db RespWriter.empty) =
      List.insertionSort newerS (db.shifts.filter (fun s => s.tenant_id == X)) ∧
    (∀ s ∈ shiftsOut (listShifts (some X) none db RespWriter.empty), s.tenant_id = X) ∧
    List.Sorted newerS (shiftsOut (listShifts (some X) none db RespWriter.empty)) ∧
    shiftsOut (listShifts none none db RespWriter.empty) =
      List.insertionSort newerS db.shifts ∧
    List.Perm (shiftsOut (listShifts none none db RespWriter.empty)) db.shifts ∧
    List.Sorted newerS (shiftsOut (listShifts none none db RespWriter.empty)) := by
  have hsel : shiftsOut (listShifts (some X) none db RespWriter.empty) =
      selectShifts db (some X) := by
    rw [shiftsOut_listShifts]
    simp [hX]
  have hall : shiftsOut (listShifts none none db RespWriter.empty) =
      selectShifts db none := by
    rw [shiftsOut_listShifts]
    rfl
  refine ⟨rfl, ?_, ?_, ?_, ?_, ?_, ?_⟩
  · rw [hsel]
    rfl
  · intro s hs
    rw [hsel] at hs
    have hmem : s ∈ db.shifts.filter (fun s => s.tenant_id == X) :=
      (List.perm_insertionSort newerS
        (db.shifts.filter (fun s => s.tenant_id == X))).mem_iff.mp hs
    exact eq_of_beq (List.mem_filter.mp hmem).2
  · rw [hsel]
    exact List.sorted_insertionSort newerS (db.shifts.filter (fun s => s.tenant_id == X))
  · rw [hall]
    rfl
  · rw [hall]
    exact List.perm_insertionSort newerS db.shifts
  · rw [hall]
    exact List.sorted_insertionSort newerS db.shifts

/-- C7 witness: filtering the sample store by t1 and listing it unfiltered, with the
membership component instantiated at the newest t1 shift. -/
theorem C7_list_shifts_filter_and_order_witness :
    ("t1" : String) ≠ "" ∧
    ((listShifts (some "t1") none dbW RespWriter.empty).w.status = some 200 ∧
     shiftsOut (listShifts (some "t1") none dbW RespWriter.empty) =
       List.insertionSort newerS (dbW.shifts.filter (fun s => s.tenant_id == "t1")) ∧
     (⟨"s3", "t1", "Night", none, none, 4⟩ : Shift).tenant_id = "t1" ∧
     List.Sorted newerS (shiftsOut (listShifts (some "t1") none dbW RespWriter.empty)) ∧
     shiftsOut (listShifts none none dbW RespWriter.empty) =
       List.insertionSort newerS dbW.shifts ∧
     List.Perm (shiftsOut (listShifts none none dbW RespWriter.empty)) dbW.shifts ∧
     List.Sorted newerS (shiftsOut (listShifts none none dbW RespWriter.empty))) :=
  let h := C7_list_shifts_filter_and_order dbW "t1" (by decide)
  ⟨by decide,
   h.1, h.2.1,
   h.2.2.1 ⟨"s3", "t1", "Night", none, none, 4⟩ (by decide),
   h.2.2.2.1, h.2.2.2.2.1, h.2.2.2.2.2.1, h.2.2.2.2.2.2⟩
